import Mathlib

/-
Verification of the test-scaffold generator in src/file-content-generator.ts
(vscode-java-tests).  The TypeScript source is embedded shallowly: JS strings
are modelled as Lean `String` (code-point model of the JS string; `toLowerCase`
and `toUpperCase` are modelled with the ASCII `Char.toLower`/`Char.toUpper`),
`Buffer.from(s, 'utf8')` is modelled by the text `s` itself, and the
`vscode.Uri` collaborator is modelled by its two string fields used by the
code (`fsPath` and `path`).  The class parser (`parseJavaClassesFromFile`, a
separate module that performs file I/O) is an external collaborator: its
result, the list of parsed class descriptors, is a parameter of the embedded
`generateTestClassFileContent`.
-/

namespace JavaTestGen

/-- Model of `vscode.Uri`, restricted to the two fields the generator reads. -/
structure Uri where
  fsPath : String
  path : String

/-- Model of the parser's `Parameter` record: `{ type, name }`. -/
structure Parameter where
  type : String
  name : String

/-- Model of the parser's method record: name, return type and parameter list.
`parameters` is optional because the TypeScript code guards it with a
truthiness check (`method.parameters && method.parameters.length > 0`). -/
structure JavaMethod where
  name : String
  returnType : String
  parameters : Option (List Parameter)

/-- Model of the parser's `JavaClass` descriptor.  `constructorParameters`
and `publicMethods` are optional because the TypeScript code guards each with
a truthiness check before iterating. -/
structure JavaClass where
  className : String
  accessModifier : String
  classParameters : String
  constructorParameters : Option (List Parameter)
  publicMethods : Option (List JavaMethod)

/-- JS `s.charAt(i)`: the one-character string at index `i`, or `""` out of
range. -/
def jsCharAt (s : String) (i : Nat) : String :=
  match s.data.drop i with
  | [] => ""
  | c :: _ => String.mk [c]

/-- JS `s.slice(i)` for a non-negative `i`: the suffix from index `i`. -/
def jsSliceFrom (s : String) (i : Nat) : String :=
  String.mk (s.data.drop i)

/-- JS `s.toLowerCase()` (ASCII model). -/
def jsToLowerCase (s : String) : String :=
  String.mk (s.data.map Char.toLower)

/-- JS `s.toUpperCase()` (ASCII model). -/
def jsToUpperCase (s : String) : String :=
  String.mk (s.data.map Char.toUpper)

/-- JS `hay.indexOf(needle)`: index of the first occurrence, `-1` if none. -/
def jsIndexOf (hay needle : String) : Int :=
  match (List.range (hay.data.length + 1)).find?
      (fun i => List.isPrefixOf needle.data (hay.data.drop i)) with
  | some i => (i : Int)
  | none => -1

/-- Clamp an integer index into `[0, len]`, as JS `String.prototype.substring`
does with its arguments. -/
def intClamp (x : Int) (len : Nat) : Nat :=
  (max 0 (min x (len : Int))).toNat

/-- JS `s.substring(a, b)`: clamps both indices into range and swaps them when
`a > b`. -/
def jsSubstring (s : String) (a b : Int) : String :=
  let len := s.data.length
  let a2 := intClamp a len
  let b2 := intClamp b len
  let lo := min a2 b2
  let hi := max a2 b2
  String.mk ((s.data.drop lo).take (hi - lo))

/-- JS `s.startsWith(pre)`. -/
def jsStartsWith (s pre : String) : Bool :=
  List.isPrefixOf pre.data s.data

/-- JS `s.replace(/\//g, '.')`: replace every slash with a dot (line 62). -/
def replaceSlashesWithDots (s : String) : String :=
  String.mk (s.data.map (fun c => if c = '/' then '.' else c))

/-- Node `posix.basename(p)`: the final path segment (trailing slashes
stripped). -/
def posixBasename (p : String) : String :=
  let trimmed := (p.data.reverse.dropWhile (fun c => c = '/')).reverse
  String.mk ((trimmed.reverse.takeWhile (fun c => c ≠ '/')).reverse)

/-- Index of the last dot of a character list, if any. -/
def lastDotIdx (l : List Char) : Option Nat :=
  (List.range l.length).reverse.find? (fun i => l.getD i ' ' = '.')

/-- Node `posix.extname(p)`: the extension of the basename, `""` when the
basename has no dot or only a leading dot. -/
def posixExtname (p : String) : String :=
  let b := (posixBasename p).data
  match lastDotIdx b with
  | some i => if i = 0 then "" else String.mk (b.drop i)
  | none => ""

/-- Number of positions of `hay` at which `needle` occurs as a substring. -/
def countOccs (needle hay : String) : Nat :=
  ((List.range (hay.data.length + 1)).filter
    (fun i => List.isPrefixOf needle.data (hay.data.drop i))).length

/-- Concatenation of a list of strings (no separator). -/
def strJoin : List String → String
  | [] => ""
  | s :: ss => s ++ strJoin ss

/-- Comma-separated rendering of a list of strings: the spec-level description
of an argument list passed "in order". -/
def commaSeparated : List String → String
  | [] => ""
  | s :: ss => s ++ strJoin (ss.map (fun t => ", " ++ t))

/-- `capitalizeFirstLetter` (lines 183-185):
`string.charAt(0).toUpperCase() + string.slice(1)`. -/
def capitalizeFirstLetter (s : String) : String :=
  jsToUpperCase (jsCharAt s 0) ++ jsSliceFrom s 1

/-- `lowercaseFirstLetter` (lines 187-189):
`string.charAt(0).toLowerCase() + string.slice(1)`. -/
def lowercaseFirstLetter (s : String) : String :=
  jsToLowerCase (jsCharAt s 0) ++ jsSliceFrom s 1

/-- `createPackageNameFromUri` (lines 46-63).  `endIndex2` is the reassigned
`endIndex` of line 56. -/
def createPackageNameFromUri (uri : Uri) (filename : Option String)
    (isTest : Bool) : String :=
  let pathPrefix := if isTest then "/src/test/java" else "/src/main/java"
  let startIndex : Int := jsIndexOf uri.fsPath pathPrefix + 15
  let endIndex : Int := (uri.path.data.length : Int)
  let extension := posixExtname uri.path
  if 0 < extension.length then
    let fn := match filename with
      | none => posixBasename uri.path
      | some f => if f.length = 0 then posixBasename uri.path else f
    let endIndex2 : Int := jsIndexOf uri.fsPath fn - 1
    if startIndex ≥ endIndex2 then ""
    else replaceSlashesWithDots (jsSubstring uri.fsPath startIndex endIndex2)
  else
    replaceSlashesWithDots (jsSubstring uri.fsPath startIndex endIndex)

/-- `generateTestClassPackageDeclaration` (lines 167-173). -/
def generateTestClassPackageDeclaration (testFileUri : Uri)
    (testClassName : String) : String :=
  let packageName := createPackageNameFromUri testFileUri (some testClassName) true
  if packageName.length = 0 then "" else "package " ++ packageName ++ ";"

/-- `generateEmptyClassContent` (lines 37-44); the returned UTF-8 buffer is
modelled by its text. -/
def generateEmptyClassContent (packageName className : String) : String :=
  let classContent :=
    if packageName.length ≠ 0 then "package " ++ packageName ++ ";\n\n" else ""
  classContent ++ "public class " ++ className ++ " \x7b\n\t\n\x7d"

/-- `createDefaultImports` (lines 146-159). -/
def createDefaultImports : String :=
  "\n\nimport static org.hamcrest.Matchers.*;\nimport static org.junit.Assert.assertEquals;\nimport static org.junit.Assert.assertThat;\nimport static org.mockito.Mockito.*;\nimport org.hamcrest.CoreMatchers;\nimport org.junit.After;\nimport org.junit.Before;\nimport org.junit.Test;\nimport org.junit.runner.RunWith;\nimport org.mockito.ArgumentCaptor;\nimport org.mockito.Mock;\nimport org.mockito.junit.MockitoJUnitRunner;\n"

/-- `createDefaultTestClass` (lines 130-144). -/
def createDefaultTestClass (javaClassName testClassName : String) : String :=
  "\npublic class " ++ testClassName ++ " \x7b\n\tprivate " ++ javaClassName ++
    " cut;\n\n\t@Before\n\tpublic void setup() \x7b\n\t\tthis.cut = new " ++
    javaClassName ++
    "();\n\t\x7d\n\n\t@Test\n\tpublic void shouldCompile() \x7b\n\t\tassertThat(\"Actual value\", is(\"Expected value\"));\n\t\x7d\n\x7d"

/-- Header of `createTestClass` (line 68). -/
def classHeader (javaClass : JavaClass) : String :=
  "\n@RunWith(MockitoJUnitRunner.class)\n" ++ javaClass.accessModifier ++
    "class " ++ javaClass.className ++ "Test \x7b\n"

/-- One step of the `constructorArgs` accumulation (lines 73-78): append with
a comma separator unless the accumulator is still empty. -/
def argStep (acc : String) (param : Parameter) : String :=
  if acc.length ≠ 0 then acc ++ ", " ++ lowercaseFirstLetter param.name
  else lowercaseFirstLetter param.name

/-- The mock field emitted for one constructor parameter (line 79). -/
def mockFieldBlock (param : Parameter) : String :=
  "\t@Mock\n\tprivate " ++ param.type ++ " " ++
    lowercaseFirstLetter param.name ++ ";\n"

/-- The constructor-parameter loop (lines 72-80), threading the
`constructorArgs` and `testClassContent` accumulators. -/
def mockLoop : List Parameter → String → String → String × String
  | [], constructorArgs, content => (constructorArgs, content)
  | param :: rest, constructorArgs, content =>
      mockLoop rest (argStep constructorArgs param) (content ++ mockFieldBlock param)

/-- Instance field and setup method of `createTestClass` (lines 83-88). -/
def setupSection (javaClass : JavaClass) (constructorArgs : String) : String :=
  let varName := lowercaseFirstLetter javaClass.className
  "\n\tprivate " ++ javaClass.className ++ javaClass.classParameters ++ " " ++
    varName ++ ";\n\n\t@Before\n\tpublic void setup() \x7b\n\t\tthis." ++
    varName ++ " = new " ++ javaClass.className ++ javaClass.classParameters ++
    "(" ++ constructorArgs ++ ");\n\t\x7d\n"

/-- One step of the `methodArgs` accumulation (lines 101-105). -/
def methodArgStep (acc : String) (param : Parameter) : String :=
  if acc.length ≠ 0 then acc ++ ", " ++ param.name else param.name

/-- The uninitialized local declaration for one method parameter (line 100). -/
def localDeclLine (param : Parameter) : String :=
  "\t\t" ++ param.type ++ " " ++ param.name ++ ";\n"

/-- The method-parameter loop (lines 99-106), threading the `methodArgs` and
content accumulators. -/
def methodArgsLoop : List Parameter → String → String → String × String
  | [], methodArgs, content => (methodArgs, content)
  | param :: rest, methodArgs, content =>
      methodArgsLoop rest (methodArgStep methodArgs param) (content ++ localDeclLine param)

/-- The test method emitted for one public method (lines 92-117): header,
optional argument-initialization section, then the call, optionally capturing
the result into `actualValue` when the return type is not `void`. -/
def testMethodBlock (varName : String) (method : JavaMethod) : String :=
  let content := "\n\t@Test\n\tpublic void should" ++
    capitalizeFirstLetter method.name ++ "() \x7b\n"
  let step1 : String × String :=
    match method.parameters with
    | some (q :: qs) =>
        let r := methodArgsLoop (q :: qs) ""
          (content ++ "\t\t// TODO: initialize args\n")
        (r.1, r.2 ++ "\n")
    | _ => ("", content)
  let content2 :=
    if method.returnType ≠ "void" then
      step1.2 ++ "\t\t" ++ method.returnType ++ " actualValue = "
    else step1.2 ++ "\t\t"
  content2 ++ varName ++ "." ++ method.name ++ "(" ++ step1.1 ++
    ");\n\n\t\t// TODO: assert scenario\n\t\x7d\n"

/-- The public-method loop of `createTestClass` (lines 91-118). -/
def methodsLoop (varName : String) : List JavaMethod → String → String
  | [], content => content
  | method :: rest, content =>
      methodsLoop varName rest (content ++ testMethodBlock varName method)

/-- The fallback test method of `createTestClass` (lines 121-124). -/
def defaultTestMethodBlock : String :=
  "\t@Test\n\tpublic void shouldCompile() \x7b\n\t\tassertThat(\"Actual value\", is(\"Expected value\"));\n\t\x7d\n"

/-- `createTestClass` (lines 65-128). -/
def createTestClass (javaClass : JavaClass) : String :=
  let varName := lowercaseFirstLetter javaClass.className
  let step1 : String × String :=
    match javaClass.constructorParameters with
    | some (p :: ps) => mockLoop (p :: ps) "" (classHeader javaClass)
    | _ => ("", classHeader javaClass)
  let content2 := step1.2 ++ setupSection javaClass step1.1
  let content3 :=
    match javaClass.publicMethods with
    | some (m :: ms) => methodsLoop varName (m :: ms) content2
    | _ => content2 ++ defaultTestMethodBlock
  content3 ++ "\x7d\n"

/-- The visibility coercion of lines 24-25: the selected descriptor's
`accessModifier` is set to `"public "`, the other fields are unchanged. -/
def coerceToPublic (c : JavaClass) : JavaClass :=
  ⟨c.className, "public ", c.classParameters, c.constructorParameters,
    c.publicMethods⟩

/-- `generateTestClassFileContent` (lines 7-35); the parsed class list (the
result of the external `parseJavaClassesFromFile` collaborator) is a
parameter, and the returned UTF-8 buffer is modelled by its text. -/
def generateTestClassFileContent (javaClasses : List JavaClass)
    (javaClassName : String) (testFileUri : Uri) (testClassName : String) :
    String :=
  let packageDeclaration := generateTestClassPackageDeclaration testFileUri testClassName
  let fileContent := packageDeclaration ++ createDefaultImports
  match javaClasses with
  | [] => fileContent ++ createDefaultTestClass javaClassName testClassName
  | c :: cs =>
      let publicClass :=
        match (c :: cs).find? (fun k => jsStartsWith k.accessModifier "public") with
        | some p => p
        | none => coerceToPublic c
      fileContent ++ createTestClass publicClass

/-- The `constructorParameters` list actually iterated: absent or empty both
skip the loop. -/
def paramsOf (d : JavaClass) : List Parameter :=
  d.constructorParameters.getD []

/-- The test-method section emitted by `createTestClass`: one block per public
method when at least one is present, the `shouldCompile` fallback otherwise. -/
def testsSectionOf (d : JavaClass) : String :=
  match d.publicMethods with
  | some (m :: ms) =>
      strJoin ((m :: ms).map (testMethodBlock (lowercaseFirstLetter d.className)))
  | _ => defaultTestMethodBlock

/-! ## String helper lemmas -/

theorem strAppend_assoc (a b c : String) : a ++ b ++ c = a ++ (b ++ c) := by
  cases a with
  | mk la =>
    cases b with
    | mk lb =>
      cases c with
      | mk lc =>
        show String.mk (la ++ lb ++ lc) = String.mk (la ++ (lb ++ lc))
        rw [List.append_assoc]

theorem strAppend_empty (a : String) : a ++ "" = a := by
  cases a with
  | mk la =>
    show String.mk (la ++ []) = String.mk la
    rw [List.append_nil]

theorem strEmpty_append (a : String) : "" ++ a = a := by
  cases a with
  | mk la => rfl

theorem strData_append (a b : String) : (a ++ b).data = a.data ++ b.data := by
  cases a with
  | mk la => cases b with | mk lb => rfl

theorem strLength_eq_data_length (a : String) : a.length = a.data.length := rfl

theorem strEq_empty_iff (a : String) : a = "" ↔ a.data = [] := by
  cases a with
  | mk la =>
    constructor
    · intro h
      rw [show ("" : String) = String.mk [] from rfl] at h
      exact congrArg String.data h
    · intro h
      show String.mk la = ""
      rw [show la = ([] : List Char) from h]

theorem strLength_ne_zero_of_ne_empty (a : String) (h : a ≠ "") :
    a.length ≠ 0 := by
  intro hlen
  apply h
  rw [strEq_empty_iff]
  exact List.length_eq_zero.mp hlen

theorem strAppend_ne_empty_left (a b : String) (h : a ≠ "") : a ++ b ≠ "" := by
  intro hab
  apply h
  rw [strEq_empty_iff] at hab ⊢
  rw [strData_append] at hab
  exact (List.append_eq_nil.mp hab).1

theorem lowercaseFirstLetter_cons (c : Char) (cs : List Char) :
    lowercaseFirstLetter (String.mk (c :: cs)) = String.mk (Char.toLower c :: cs) := rfl

theorem lowercaseFirstLetter_ne_empty (s : String) (h : s ≠ "") :
    lowercaseFirstLetter s ≠ "" := by
  cases s with
  | mk l =>
    cases l with
    | nil => exact absurd rfl h
    | cons c cs =>
      rw [lowercaseFirstLetter_cons]
      intro hc
      exact absurd ((strEq_empty_iff _).mp hc) (by simp)

/-! ## Loop decomposition lemmas -/

theorem mockLoop_spec (params : List Parameter) :
    ∀ args content, mockLoop params args content =
      (params.foldl argStep args, content ++ strJoin (params.map mockFieldBlock)) := by
  induction params with
  | nil =>
    intro args content
    simp [mockLoop, strJoin, strAppend_empty]
  | cons p ps ih =>
    intro args content
    rw [mockLoop, ih, List.foldl_cons, List.map_cons, strJoin, ← strAppend_assoc]

theorem methodArgsLoop_spec (params : List Parameter) :
    ∀ args content, methodArgsLoop params args content =
      (params.foldl methodArgStep args, content ++ strJoin (params.map localDeclLine)) := by
  induction params with
  | nil =>
    intro args content
    simp [methodArgsLoop, strJoin, strAppend_empty]
  | cons p ps ih =>
    intro args content
    rw [methodArgsLoop, ih, List.foldl_cons, List.map_cons, strJoin, ← strAppend_assoc]

theorem methodsLoop_spec (varName : String) (methods : List JavaMethod) :
    ∀ content, methodsLoop varName methods content =
      content ++ strJoin (methods.map (testMethodBlock varName)) := by
  induction methods with
  | nil =>
    intro content
    simp [methodsLoop, strJoin, strAppend_empty]
  | cons m ms ih =>
    intro content
    rw [methodsLoop, ih, List.map_cons, strJoin, ← strAppend_assoc]

theorem foldl_argStep_of_ne (params : List Parameter) :
    ∀ a : String, a ≠ "" →
      params.foldl argStep a =
        a ++ strJoin (params.map (fun p => ", " ++ lowercaseFirstLetter p.name)) := by
  induction params with
  | nil =>
    intro a _
    simp [strJoin, strAppend_empty]
  | cons p ps ih =>
    intro a ha
    have hlen : a.length ≠ 0 := strLength_ne_zero_of_ne_empty a ha
    rw [List.foldl_cons, List.map_cons, strJoin]
    have hstep : argStep a p = a ++ ", " ++ lowercaseFirstLetter p.name := by
      simp [argStep, hlen]
    rw [hstep, ih _ (strAppend_ne_empty_left _ _ (strAppend_ne_empty_left _ _ ha)),
      strAppend_assoc, strAppend_assoc, strAppend_assoc]

theorem foldl_argStep_commaSeparated (params : List Parameter)
    (h : ∀ p ∈ params, p.name ≠ "") :
    params.foldl argStep "" =
      commaSeparated (params.map (fun p => lowercaseFirstLetter p.name)) := by
  cases params with
  | nil => rfl
  | cons p ps =>
    have hp : p.name ≠ "" := h p (by simp)
    have hstep : argStep "" p = lowercaseFirstLetter p.name := by
      simp [argStep]
    rw [List.foldl_cons, hstep, List.map_cons, commaSeparated,
      foldl_argStep_of_ne ps _ (lowercaseFirstLetter_ne_empty _ hp), List.map_map]
    rfl

/-- Workhorse: `createTestClass` decomposed into header, mock-field section,
setup section, test-method section and closing brace. -/
theorem createTestClass_eq (d : JavaClass) :
    createTestClass d =
      classHeader d ++ strJoin ((paramsOf d).map mockFieldBlock) ++
        setupSection d ((paramsOf d).foldl argStep "") ++ testsSectionOf d ++ "\x7d\n" := by
  unfold createTestClass paramsOf testsSectionOf
  cases hc : d.constructorParameters with
  | none =>
    cases hm : d.publicMethods with
    | none =>
      simp [Option.getD, strJoin, strAppend_empty, strAppend_assoc]
    | some ms =>
      cases ms with
      | nil => simp [Option.getD, strJoin, strAppend_empty, strAppend_assoc]
      | cons m ms2 =>
        simp [Option.getD, strJoin, strAppend_empty, methodsLoop_spec, strAppend_assoc]
  | some ps =>
    cases ps with
    | nil =>
      cases hm : d.publicMethods with
      | none =>
        simp [Option.getD, strJoin, strAppend_empty, strAppend_assoc]
      | some ms =>
        cases ms with
        | nil => simp [Option.getD, strJoin, strAppend_empty, strAppend_assoc]
        | cons m ms2 =>
          simp [Option.getD, strJoin, strAppend_empty, methodsLoop_spec, strAppend_assoc]
    | cons p ps2 =>
      cases hm : d.publicMethods with
      | none =>
        simp [Option.getD, mockLoop_spec, strAppend_assoc]
      | some ms =>
        cases ms with
        | nil => simp [Option.getD, mockLoop_spec, strAppend_assoc]
        | cons m ms2 =>
          simp [Option.getD, mockLoop_spec, methodsLoop_spec, strAppend_assoc]

theorem isPrefixOf_append_self (l r : List Char) :
    List.isPrefixOf l (l ++ r) = true := by
  induction l with
  | nil => simp [List.isPrefixOf]
  | cons a as ih => simp [List.isPrefixOf, ih]

theorem find?_append_first {α : Type} (p : α → Bool) (l1 : List α) (x : α)
    (l2 : List α) (h1 : ∀ y ∈ l1, p y = false) (hx : p x = true) :
    List.find? p (l1 ++ x :: l2) = some x := by
  induction l1 with
  | nil => simp [List.find?, hx]
  | cons a as ih =>
    have ha : p a = false := h1 a (by simp)
    rw [List.cons_append, List.find?]
    rw [ha]
    exact ih (fun y hy => h1 y (by simp [hy]))

/-- Every emitted test method begins with the fixed header naming it
`should` + the capitalized method name (lines 92-93). -/
theorem testMethodBlock_prefix (v : String) (meth : JavaMethod) :
    ∃ rest, testMethodBlock v meth =
      "\n\t@Test\n\tpublic void should" ++ capitalizeFirstLetter meth.name ++
        "() \x7b\n" ++ rest := by
  unfold testMethodBlock
  cases hp : meth.parameters with
  | none =>
    by_cases hrt : meth.returnType = "void"
    · refine ⟨"\t\t" ++ (v ++ "." ++ meth.name ++ "(" ++
        ");\n\n\t\t// TODO: assert scenario\n\t\x7d\n"), ?_⟩
      simp [hp, hrt, strAppend_assoc, strAppend_empty, strEmpty_append]
      rw [show ("() \x7b\n\t\t" : String) = "() \x7b\n" ++ "\t\t" from rfl]
      simp only [strAppend_assoc]
    · refine ⟨"\t\t" ++ meth.returnType ++ " actualValue = " ++
        (v ++ "." ++ meth.name ++ "(" ++
          ");\n\n\t\t// TODO: assert scenario\n\t\x7d\n"), ?_⟩
      simp [hp, hrt, strAppend_assoc, strAppend_empty, strEmpty_append]
      rw [show ("() \x7b\n\t\t" : String) = "() \x7b\n" ++ "\t\t" from rfl]
      simp only [strAppend_assoc]
  | some qs =>
    cases qs with
    | nil =>
      by_cases hrt : meth.returnType = "void"
      · refine ⟨"\t\t" ++ (v ++ "." ++ meth.name ++ "(" ++
          ");\n\n\t\t// TODO: assert scenario\n\t\x7d\n"), ?_⟩
        simp [hp, hrt, strAppend_assoc, strAppend_empty, strEmpty_append]
        rw [show ("() \x7b\n\t\t" : String) = "() \x7b\n" ++ "\t\t" from rfl]
        simp only [strAppend_assoc]
      · refine ⟨"\t\t" ++ meth.returnType ++ " actualValue = " ++
          (v ++ "." ++ meth.name ++ "(" ++
            ");\n\n\t\t// TODO: assert scenario\n\t\x7d\n"), ?_⟩
        simp [hp, hrt, strAppend_assoc, strAppend_empty, strEmpty_append]
        rw [show ("() \x7b\n\t\t" : String) = "() \x7b\n" ++ "\t\t" from rfl]
        simp only [strAppend_assoc]
    | cons q qs2 =>
      by_cases hrt : meth.returnType = "void"
      · refine ⟨"\t\t// TODO: initialize args\n" ++
          strJoin ((q :: qs2).map localDeclLine) ++ "\n" ++ "\t\t" ++
          (v ++ "." ++ meth.name ++ "(" ++ ((q :: qs2).foldl methodArgStep "") ++
            ");\n\n\t\t// TODO: assert scenario\n\t\x7d\n"), ?_⟩
        simp [hp, hrt, methodArgsLoop_spec, strAppend_assoc, strAppend_empty,
          strEmpty_append]
        rw [show ("() \x7b\n\t\t// TODO: initialize args\n" : String) =
          "() \x7b\n" ++ "\t\t// TODO: initialize args\n" from rfl]
        simp only [strAppend_assoc]
      · refine ⟨"\t\t// TODO: initialize args\n" ++
          strJoin ((q :: qs2).map localDeclLine) ++ "\n" ++ "\t\t" ++
          meth.returnType ++ " actualValue = " ++
          (v ++ "." ++ meth.name ++ "(" ++ ((q :: qs2).foldl methodArgStep "") ++
            ");\n\n\t\t// TODO: assert scenario\n\t\x7d\n"), ?_⟩
        simp [hp, hrt, methodArgsLoop_spec, strAppend_assoc, strAppend_empty,
          strEmpty_append]
        rw [show ("() \x7b\n\t\t// TODO: initialize args\n" : String) =
          "() \x7b\n" ++ "\t\t// TODO: initialize args\n" from rfl]
        simp only [strAppend_assoc]

/-! ## Claim theorems -/

/-- C10: `generateEmptyClassContent` produces text ending with
`public class <className> {`, an indented blank line and a closing brace, and
begins with `package <packageName>;` followed by a blank line exactly when
`packageName` is non-empty; when it is empty no package line is emitted. -/
theorem c10_generateEmptyClassContent (p c : String) :
    generateEmptyClassContent p c =
      (if p.length ≠ 0 then "package " ++ p ++ ";\n\n" else "") ++
        "public class " ++ c ++ " \x7b\n\t\n\x7d"
    ∧ (jsStartsWith (generateEmptyClassContent p c) "package " = true ↔ p ≠ "")
    ∧ ∃ pre, generateEmptyClassContent p c =
        pre ++ ("public class " ++ c ++ " \x7b\n\t\n\x7d") := by
  refine ⟨rfl, ?_, ?_⟩
  · by_cases hp : p = ""
    · have hlen : ¬ p.length ≠ 0 := by simp [hp]
      have hres : generateEmptyClassContent p c =
          "public class " ++ (c ++ " \x7b\n\t\n\x7d") := by
        simp [generateEmptyClassContent, hlen, strEmpty_append, strAppend_assoc]
      constructor
      · intro hstart
        exfalso
        rw [hres] at hstart
        unfold jsStartsWith at hstart
        rw [strData_append] at hstart
        rw [show ("package " : String).data = 'p' :: 'a' :: ("ckage " : String).data
          from rfl] at hstart
        rw [show ("public class " : String).data =
          'p' :: 'u' :: ("blic class " : String).data from rfl] at hstart
        simp [List.isPrefixOf] at hstart
      · intro hne
        exact absurd hp hne
    · have hlen : p.length ≠ 0 := strLength_ne_zero_of_ne_empty p hp
      constructor
      · intro _
        exact hp
      · intro _
        have hres : generateEmptyClassContent p c =
            "package " ++ (p ++ ";\n\n" ++ "public class " ++ c ++ " \x7b\n\t\n\x7d") := by
          simp [generateEmptyClassContent, hlen, strAppend_assoc]
        rw [hres]
        unfold jsStartsWith
        rw [strData_append]
        exact isPrefixOf_append_self _ _
  · refine ⟨if p.length ≠ 0 then "package " ++ p ++ ";\n\n" else "", ?_⟩
    simp [generateEmptyClassContent, strAppend_assoc]

set_option maxRecDepth 10000 in
/-- C2: with an empty descriptor list, generation emits the package
declaration, the default imports and the default scaffold (field `cut`,
no-argument construction, a single `shouldCompile` placeholder test);
the concrete counts confirm the scaffold holds exactly one test method,
one `cut` field and one no-argument construction. -/
theorem c2_default_scaffold (uri : Uri) (jn tn : String) :
    generateTestClassFileContent [] jn uri tn =
      generateTestClassPackageDeclaration uri tn ++ createDefaultImports ++
        createDefaultTestClass jn tn
    ∧ createDefaultTestClass jn tn =
        "\npublic class " ++ tn ++ " \x7b\n\tprivate " ++ jn ++
          " cut;\n\n\t@Before\n\tpublic void setup() \x7b\n\t\tthis.cut = new " ++
          jn ++
          "();\n\t\x7d\n\n\t@Test\n\tpublic void shouldCompile() \x7b\n\t\tassertThat(\"Actual value\", is(\"Expected value\"));\n\t\x7d\n\x7d"
    ∧ countOccs "@Test" (createDefaultTestClass "Foo" "FooTest") = 1
    ∧ countOccs " cut;" (createDefaultTestClass "Foo" "FooTest") = 1
    ∧ countOccs "new Foo()" (createDefaultTestClass "Foo" "FooTest") = 1
    ∧ countOccs "shouldCompile" (createDefaultTestClass "Foo" "FooTest") = 1 := by
  exact ⟨rfl, rfl, by decide, by decide, by decide, by decide⟩

/-- C5: the generated instance-field name is the class name with only its
first character lower-cased (all other characters untouched); in particular
`HTTPClient` becomes `hTTPClient`; and the instance-field declaration emitted
by the generator uses exactly `lowercaseFirstLetter` of the class name. -/
theorem c5_instance_var_name :
    (∀ (c : Char) (cs : List Char),
        lowercaseFirstLetter (String.mk (c :: cs)) = String.mk (Char.toLower c :: cs))
    ∧ lowercaseFirstLetter "HTTPClient" = "hTTPClient"
    ∧ (∀ (d : JavaClass) (args : String), ∃ rest,
        setupSection d args =
          "\n\tprivate " ++ d.className ++ d.classParameters ++ " " ++
            lowercaseFirstLetter d.className ++ rest)
    ∧ (∀ d : JavaClass, ∃ pre,
        createTestClass d =
          pre ++ setupSection d ((paramsOf d).foldl argStep "") ++
            testsSectionOf d ++ "\x7d\n") := by
  refine ⟨fun c cs => rfl, rfl, ?_, ?_⟩
  · intro d args
    refine ⟨";\n\n\t@Before\n\tpublic void setup() \x7b\n\t\tthis." ++
      lowercaseFirstLetter d.className ++ " = new " ++ d.className ++
      d.classParameters ++ "(" ++ args ++ ");\n\t\x7d\n", ?_⟩
    simp [setupSection, strAppend_assoc]
  · intro d
    refine ⟨classHeader d ++ strJoin ((paramsOf d).map mockFieldBlock), ?_⟩
    rw [createTestClass_eq]

set_option maxRecDepth 10000 in
/-- C7: when the selected descriptor has no public methods (absent or empty
list), the generated test class carries exactly one default test method,
`shouldCompile`, asserting the literal placeholder equality. -/
theorem c7_shouldCompile_fallback (d : JavaClass)
    (h : d.publicMethods = none ∨ d.publicMethods = some []) :
    createTestClass d =
      classHeader d ++ strJoin ((paramsOf d).map mockFieldBlock) ++
        setupSection d ((paramsOf d).foldl argStep "") ++
        defaultTestMethodBlock ++ "\x7d\n"
    ∧ countOccs "@Test" defaultTestMethodBlock = 1
    ∧ countOccs "shouldCompile" defaultTestMethodBlock = 1
    ∧ countOccs "assertThat(\"Actual value\", is(\"Expected value\"));"
        defaultTestMethodBlock = 1 := by
  have hts : testsSectionOf d = defaultTestMethodBlock := by
    cases h with
    | inl h1 => simp [testsSectionOf, h1]
    | inr h1 => simp [testsSectionOf, h1]
  exact ⟨by rw [createTestClass_eq, hts], by decide, by decide, by decide⟩

/-- Witness for C7 at a concrete descriptor with one constructor parameter
and absent `publicMethods`. -/
theorem c7_shouldCompile_fallback_witness :
    createTestClass ⟨"Foo", "public ", "", some [⟨"Bar", "bar"⟩], none⟩ =
      classHeader ⟨"Foo", "public ", "", some [⟨"Bar", "bar"⟩], none⟩ ++
        strJoin ((paramsOf ⟨"Foo", "public ", "", some [⟨"Bar", "bar"⟩], none⟩).map
          mockFieldBlock) ++
        setupSection ⟨"Foo", "public ", "", some [⟨"Bar", "bar"⟩], none⟩
          ((paramsOf ⟨"Foo", "public ", "", some [⟨"Bar", "bar"⟩], none⟩).foldl
            argStep "") ++
        defaultTestMethodBlock ++ "\x7d\n"
    ∧ countOccs "@Test" defaultTestMethodBlock = 1
    ∧ countOccs "shouldCompile" defaultTestMethodBlock = 1
    ∧ countOccs "assertThat(\"Actual value\", is(\"Expected value\"));"
        defaultTestMethodBlock = 1 :=
  c7_shouldCompile_fallback ⟨"Foo", "public ", "", some [⟨"Bar", "bar"⟩], none⟩
    (Or.inl rfl)

/-- C9: generation is total and degrades safely: for a descriptor with a
non-empty class name and absent or empty `constructorParameters` and
`publicMethods`, `createTestClass` yields the header, a setup section with a
no-argument constructor call (no mock fields), and the placeholder test; the
derived variable name is non-empty. -/
theorem c9_total_safe_defaults (d : JavaClass) (hcn : d.className ≠ "")
    (hc : d.constructorParameters = none ∨ d.constructorParameters = some [])
    (hm : d.publicMethods = none ∨ d.publicMethods = some []) :
    createTestClass d =
      classHeader d ++ setupSection d "" ++ defaultTestMethodBlock ++ "\x7d\n"
    ∧ lowercaseFirstLetter d.className ≠ "" := by
  have hp : paramsOf d = [] := by
    cases hc with
    | inl h1 => simp [paramsOf, h1]
    | inr h1 => simp [paramsOf, h1]
  have hts : testsSectionOf d = defaultTestMethodBlock := by
    cases hm with
    | inl h1 => simp [testsSectionOf, h1]
    | inr h1 => simp [testsSectionOf, h1]
  constructor
  · rw [createTestClass_eq, hp, hts]
    simp [strJoin, strAppend_empty]
  · exact lowercaseFirstLetter_ne_empty _ hcn

/-- Witness for C9 at the spec's `Helper` scenario: a package-private class
with no constructor and no public methods. -/
theorem c9_total_safe_defaults_witness :
    createTestClass ⟨"Helper", "", "", none, none⟩ =
      classHeader ⟨"Helper", "", "", none, none⟩ ++
        setupSection ⟨"Helper", "", "", none, none⟩ "" ++
        defaultTestMethodBlock ++ "\x7d\n"
    ∧ lowercaseFirstLetter (JavaClass.className ⟨"Helper", "", "", none, none⟩) ≠ "" :=
  c9_total_safe_defaults ⟨"Helper", "", "", none, none⟩ (by decide)
    (Or.inl rfl) (Or.inl rfl)

/-- C1: with a non-empty descriptor list, the first descriptor whose access
modifier starts with `public` is selected as the public class; when none
does, the first descriptor is selected with its `accessModifier` set to
`"public "` (all other fields unchanged), and exactly that one class body is
emitted. -/
theorem c1_public_class_selection (uri : Uri) (jn tn : String) :
    (∀ (l1 : List JavaClass) (x : JavaClass) (l2 : List JavaClass),
        (∀ y ∈ l1, jsStartsWith y.accessModifier "public" = false) →
        jsStartsWith x.accessModifier "public" = true →
        generateTestClassFileContent (l1 ++ x :: l2) jn uri tn =
          generateTestClassPackageDeclaration uri tn ++ createDefaultImports ++
            createTestClass x)
    ∧ (∀ (c : JavaClass) (cs : List JavaClass),
        (∀ y ∈ c :: cs, jsStartsWith y.accessModifier "public" = false) →
        generateTestClassFileContent (c :: cs) jn uri tn =
          generateTestClassPackageDeclaration uri tn ++ createDefaultImports ++
            createTestClass (coerceToPublic c)
        ∧ (coerceToPublic c).accessModifier = "public "
        ∧ (coerceToPublic c).className = c.className
        ∧ (coerceToPublic c).classParameters = c.classParameters
        ∧ (coerceToPublic c).constructorParameters = c.constructorParameters
        ∧ (coerceToPublic c).publicMethods = c.publicMethods) := by
  constructor
  · intro l1 x l2 h1 hx
    have hfind : List.find? (fun k => jsStartsWith k.accessModifier "public")
        (l1 ++ x :: l2) = some x := find?_append_first _ l1 x l2 h1 hx
    cases l1 with
    | nil =>
      rw [List.nil_append] at hfind
      simp [generateTestClassFileContent, hfind, strAppend_assoc]
    | cons a as =>
      rw [List.cons_append] at hfind
      simp only [List.cons_append, generateTestClassFileContent]
      rw [hfind]
  · intro c cs hall
    have hfind : List.find? (fun k => jsStartsWith k.accessModifier "public")
        (c :: cs) = none := by
      rw [List.find?_eq_none]
      intro y hy
      rw [hall y hy]
      simp
    refine ⟨?_, rfl, rfl, rfl, rfl, rfl⟩
    simp [generateTestClassFileContent, hfind, strAppend_assoc]

/-- Witness for C1: a public class after a package-private one is selected;
a lone package-private class is coerced to public. -/
theorem c1_public_class_selection_witness :
    generateTestClassFileContent
        ([⟨"A", "", "", none, none⟩] ++ (⟨"B", "public ", "", none, none⟩ : JavaClass) :: [])
        "B" ⟨"/Foo.java", "/Foo.java"⟩ "BTest" =
      generateTestClassPackageDeclaration ⟨"/Foo.java", "/Foo.java"⟩ "BTest" ++
        createDefaultImports ++ createTestClass ⟨"B", "public ", "", none, none⟩
    ∧ (generateTestClassFileContent ((⟨"A", "", "", none, none⟩ : JavaClass) :: [])
          "A" ⟨"/Foo.java", "/Foo.java"⟩ "ATest" =
        generateTestClassPackageDeclaration ⟨"/Foo.java", "/Foo.java"⟩ "ATest" ++
          createDefaultImports ++
          createTestClass (coerceToPublic ⟨"A", "", "", none, none⟩)
      ∧ (coerceToPublic (⟨"A", "", "", none, none⟩ : JavaClass)).accessModifier = "public "
      ∧ (coerceToPublic (⟨"A", "", "", none, none⟩ : JavaClass)).className =
          (⟨"A", "", "", none, none⟩ : JavaClass).className
      ∧ (coerceToPublic (⟨"A", "", "", none, none⟩ : JavaClass)).classParameters =
          (⟨"A", "", "", none, none⟩ : JavaClass).classParameters
      ∧ (coerceToPublic (⟨"A", "", "", none, none⟩ : JavaClass)).constructorParameters =
          (⟨"A", "", "", none, none⟩ : JavaClass).constructorParameters
      ∧ (coerceToPublic (⟨"A", "", "", none, none⟩ : JavaClass)).publicMethods =
          (⟨"A", "", "", none, none⟩ : JavaClass).publicMethods) :=
  ⟨(c1_public_class_selection ⟨"/Foo.java", "/Foo.java"⟩ "B" "BTest").1
      [⟨"A", "", "", none, none⟩] ⟨"B", "public ", "", none, none⟩ []
      (by decide) (by decide),
    (c1_public_class_selection ⟨"/Foo.java", "/Foo.java"⟩ "A" "ATest").2
      ⟨"A", "", "", none, none⟩ [] (by decide)⟩

/-- C4: when `constructorParameters` is the list `ps` (all names non-empty
identifiers), the generated class contains exactly `ps.length` mock-field
blocks, one per parameter in order, each typed by the parameter type and
named by the lower-cased parameter name, and the setup call passes exactly
those names comma-separated in the original order. -/
theorem c4_mock_fields (d : JavaClass) (ps : List Parameter)
    (h : d.constructorParameters = some ps)
    (hnames : ∀ p ∈ ps, p.name ≠ "") :
    ∃ testsPart,
      createTestClass d =
        classHeader d ++ strJoin (ps.map mockFieldBlock) ++
          setupSection d
            (commaSeparated (ps.map (fun p => lowercaseFirstLetter p.name))) ++
          testsPart ++ "\x7d\n"
      ∧ (ps.map mockFieldBlock).length = ps.length
      ∧ ∀ p : Parameter, mockFieldBlock p =
          "\t@Mock\n\tprivate " ++ p.type ++ " " ++
            lowercaseFirstLetter p.name ++ ";\n" := by
  refine ⟨testsSectionOf d, ?_, by simp, fun p => rfl⟩
  rw [createTestClass_eq]
  have hp : paramsOf d = ps := by simp [paramsOf, h]
  rw [hp, foldl_argStep_commaSeparated ps hnames]

/-- Witness for C4 at the spec's Calculator scenario (one `Logger logger`
constructor parameter). -/
theorem c4_mock_fields_witness :
    ∃ testsPart,
      createTestClass ⟨"Calculator", "public ", "", some [⟨"Logger", "logger"⟩], none⟩ =
        classHeader ⟨"Calculator", "public ", "", some [⟨"Logger", "logger"⟩], none⟩ ++
          strJoin ([(⟨"Logger", "logger"⟩ : Parameter)].map mockFieldBlock) ++
          setupSection ⟨"Calculator", "public ", "", some [⟨"Logger", "logger"⟩], none⟩
            (commaSeparated ([(⟨"Logger", "logger"⟩ : Parameter)].map
              (fun p => lowercaseFirstLetter p.name))) ++
          testsPart ++ "\x7d\n"
      ∧ ([(⟨"Logger", "logger"⟩ : Parameter)].map mockFieldBlock).length =
          [(⟨"Logger", "logger"⟩ : Parameter)].length
      ∧ ∀ p : Parameter, mockFieldBlock p =
          "\t@Mock\n\tprivate " ++ p.type ++ " " ++
            lowercaseFirstLetter p.name ++ ";\n" :=
  c4_mock_fields ⟨"Calculator", "public ", "", some [⟨"Logger", "logger"⟩], none⟩
    [⟨"Logger", "logger"⟩] rfl (by decide)

set_option maxRecDepth 20000 in
/-- C3 is false as stated: for a selected descriptor whose `publicMethods`
list is empty, the code emits the `shouldCompile` fallback, so one `@Test`
method is emitted although the `publicMethods` sequence has zero entries. -/
theorem c3_counterexample :
    countOccs "@Test"
        (createTestClass ⟨"Foo", "public ", "", some [], some []⟩) ≠
      ((JavaClass.publicMethods ⟨"Foo", "public ", "", some [], some []⟩).getD []).length := by
  decide

/-- C3 amended: for a selected descriptor whose `publicMethods` sequence is
non-empty, the emitted test-method section is exactly the concatenation of
one block per public method, in the order of the sequence, and every block
begins with the `@Test` header naming the method `should` + the method name
with its first character upper-cased. -/
theorem c3_amended_test_methods (d : JavaClass) (m : JavaMethod)
    (ms : List JavaMethod) (h : d.publicMethods = some (m :: ms)) :
    createTestClass d =
      classHeader d ++ strJoin ((paramsOf d).map mockFieldBlock) ++
        setupSection d ((paramsOf d).foldl argStep "") ++
        strJoin ((m :: ms).map (testMethodBlock (lowercaseFirstLetter d.className))) ++
        "\x7d\n"
    ∧ ((m :: ms).map (testMethodBlock (lowercaseFirstLetter d.className))).length =
        (m :: ms).length
    ∧ ∀ meth : JavaMethod, ∃ rest,
        testMethodBlock (lowercaseFirstLetter d.className) meth =
          "\n\t@Test\n\tpublic void should" ++ capitalizeFirstLetter meth.name ++
            "() \x7b\n" ++ rest := by
  have hts : testsSectionOf d =
      strJoin ((m :: ms).map (testMethodBlock (lowercaseFirstLetter d.className))) := by
    simp [testsSectionOf, h]
  refine ⟨?_, by simp, fun meth => testMethodBlock_prefix _ meth⟩
  rw [createTestClass_eq, hts]

/-- Witness for the amended C3 at a descriptor with one public method
`add`. -/
theorem c3_amended_test_methods_witness :
    createTestClass
        ⟨"Calculator", "public ", "", none, some [⟨"add", "int", none⟩]⟩ =
      classHeader ⟨"Calculator", "public ", "", none, some [⟨"add", "int", none⟩]⟩ ++
        strJoin ((paramsOf ⟨"Calculator", "public ", "", none, some [⟨"add", "int", none⟩]⟩).map
          mockFieldBlock) ++
        setupSection ⟨"Calculator", "public ", "", none, some [⟨"add", "int", none⟩]⟩
          ((paramsOf ⟨"Calculator", "public ", "", none, some [⟨"add", "int", none⟩]⟩).foldl
            argStep "") ++
        strJoin (((⟨"add", "int", none⟩ : JavaMethod) :: []).map
          (testMethodBlock (lowercaseFirstLetter
            (JavaClass.className ⟨"Calculator", "public ", "", none, some [⟨"add", "int", none⟩]⟩)))) ++
        "\x7d\n"
    ∧ (((⟨"add", "int", none⟩ : JavaMethod) :: []).map
        (testMethodBlock (lowercaseFirstLetter
          (JavaClass.className ⟨"Calculator", "public ", "", none, some [⟨"add", "int", none⟩]⟩)))).length =
        ((⟨"add", "int", none⟩ : JavaMethod) :: []).length
    ∧ ∀ meth : JavaMethod, ∃ rest,
        testMethodBlock (lowercaseFirstLetter
            (JavaClass.className ⟨"Calculator", "public ", "", none, some [⟨"add", "int", none⟩]⟩)) meth =
          "\n\t@Test\n\tpublic void should" ++ capitalizeFirstLetter meth.name ++
            "() \x7b\n" ++ rest :=
  c3_amended_test_methods
    ⟨"Calculator", "public ", "", none, some [⟨"add", "int", none⟩]⟩
    ⟨"add", "int", none⟩ [] rfl

/-- C8: each emitted test method ends with the call to the method on the
instance variable; when the return type is not the `void` sentinel the call
result is captured in a local `actualValue` typed by the return type, when it
is `void` the call is emitted bare, and in both cases the TODO assertion
placeholder comment follows the call. -/
theorem c8_actual_value_capture (v : String) (meth : JavaMethod) :
    (meth.returnType ≠ "void" → ∃ pre args,
        testMethodBlock v meth =
          pre ++ ("\t\t" ++ meth.returnType ++ " actualValue = " ++
            (v ++ "." ++ meth.name ++ "(" ++ args ++
              ");\n\n\t\t// TODO: assert scenario\n\t\x7d\n")))
    ∧ (meth.returnType = "void" → ∃ pre args,
        testMethodBlock v meth =
          pre ++ ("\t\t" ++
            (v ++ "." ++ meth.name ++ "(" ++ args ++
              ");\n\n\t\t// TODO: assert scenario\n\t\x7d\n"))) := by
  constructor
  · intro hrt
    cases hp : meth.parameters with
    | none =>
      refine ⟨"\n\t@Test\n\tpublic void should" ++ capitalizeFirstLetter meth.name ++
        "() \x7b\n", "", ?_⟩
      simp [testMethodBlock, hp, hrt, strAppend_assoc, strAppend_empty, strEmpty_append]
      rw [show ("() \x7b\n\t\t" : String) = "() \x7b\n" ++ "\t\t" from rfl]
      simp only [strAppend_assoc]
    | some qs =>
      cases qs with
      | nil =>
        refine ⟨"\n\t@Test\n\tpublic void should" ++ capitalizeFirstLetter meth.name ++
          "() \x7b\n", "", ?_⟩
        simp [testMethodBlock, hp, hrt, strAppend_assoc, strAppend_empty, strEmpty_append]
        rw [show ("() \x7b\n\t\t" : String) = "() \x7b\n" ++ "\t\t" from rfl]
        simp only [strAppend_assoc]
      | cons q qs2 =>
        refine ⟨"\n\t@Test\n\tpublic void should" ++ capitalizeFirstLetter meth.name ++
          "() \x7b\n" ++ "\t\t// TODO: initialize args\n" ++
          strJoin ((q :: qs2).map localDeclLine) ++ "\n",
          (q :: qs2).foldl methodArgStep "", ?_⟩
        simp [testMethodBlock, hp, hrt, methodArgsLoop_spec, strAppend_assoc,
          strAppend_empty, strEmpty_append]
        rw [show ("() \x7b\n\t\t// TODO: initialize args\n" : String) =
          "() \x7b\n" ++ "\t\t// TODO: initialize args\n" from rfl]
        rw [show ("\n\t\t" : String) = "\n" ++ "\t\t" from rfl]
        simp only [strAppend_assoc]
  · intro hrt
    cases hp : meth.parameters with
    | none =>
      refine ⟨"\n\t@Test\n\tpublic void should" ++ capitalizeFirstLetter meth.name ++
        "() \x7b\n", "", ?_⟩
      simp [testMethodBlock, hp, hrt, strAppend_assoc, strAppend_empty, strEmpty_append]
      rw [show ("() \x7b\n\t\t" : String) = "() \x7b\n" ++ "\t\t" from rfl]
      simp only [strAppend_assoc]
    | some qs =>
      cases qs with
      | nil =>
        refine ⟨"\n\t@Test\n\tpublic void should" ++ capitalizeFirstLetter meth.name ++
          "() \x7b\n", "", ?_⟩
        simp [testMethodBlock, hp, hrt, strAppend_assoc, strAppend_empty, strEmpty_append]
        rw [show ("() \x7b\n\t\t" : String) = "() \x7b\n" ++ "\t\t" from rfl]
        simp only [strAppend_assoc]
      | cons q qs2 =>
        refine ⟨"\n\t@Test\n\tpublic void should" ++ capitalizeFirstLetter meth.name ++
          "() \x7b\n" ++ "\t\t// TODO: initialize args\n" ++
          strJoin ((q :: qs2).map localDeclLine) ++ "\n",
          (q :: qs2).foldl methodArgStep "", ?_⟩
        simp [testMethodBlock, hp, hrt, methodArgsLoop_spec, strAppend_assoc,
          strAppend_empty, strEmpty_append]
        rw [show ("() \x7b\n\t\t// TODO: initialize args\n" : String) =
          "() \x7b\n" ++ "\t\t// TODO: initialize args\n" from rfl]
        rw [show ("\n\t\t" : String) = "\n" ++ "\t\t" from rfl]
        simp only [strAppend_assoc]

/-- Witness for C8: an `int`-returning method captures into `actualValue`, a
`void` method does not. -/
theorem c8_actual_value_capture_witness :
    (∃ pre args,
        testMethodBlock "calculator" ⟨"add", "int", none⟩ =
          pre ++ ("\t\t" ++ (JavaMethod.returnType ⟨"add", "int", none⟩) ++
            " actualValue = " ++
            ("calculator" ++ "." ++ (JavaMethod.name ⟨"add", "int", none⟩) ++ "(" ++ args ++
              ");\n\n\t\t// TODO: assert scenario\n\t\x7d\n")))
    ∧ (∃ pre args,
        testMethodBlock "calculator" ⟨"reset", "void", none⟩ =
          pre ++ ("\t\t" ++
            ("calculator" ++ "." ++ (JavaMethod.name ⟨"reset", "void", none⟩) ++ "(" ++ args ++
              ");\n\n\t\t// TODO: assert scenario\n\t\x7d\n"))) :=
  ⟨(c8_actual_value_capture "calculator" ⟨"add", "int", none⟩).1 (by decide),
    (c8_actual_value_capture "calculator" ⟨"reset", "void", none⟩).2 rfl⟩

set_option maxRecDepth 40000 in
/-- C6 is false as stated: for the location `/aaaaaaaaaaaaaaaaaaaa/Foo.java`,
whose path contains neither `/src/test/java` nor `/src/main/java`, package
derivation returns the non-empty string `aaaaaaa` (for both trees) and a
`package aaaaaaa;` line is emitted. -/
theorem c6_counterexample :
    jsIndexOf (Uri.fsPath ⟨"/aaaaaaaaaaaaaaaaaaaa/Foo.java", "/aaaaaaaaaaaaaaaaaaaa/Foo.java"⟩)
        "/src/test/java" = -1
    ∧ jsIndexOf (Uri.fsPath ⟨"/aaaaaaaaaaaaaaaaaaaa/Foo.java", "/aaaaaaaaaaaaaaaaaaaa/Foo.java"⟩)
        "/src/main/java" = -1
    ∧ createPackageNameFromUri
        ⟨"/aaaaaaaaaaaaaaaaaaaa/Foo.java", "/aaaaaaaaaaaaaaaaaaaa/Foo.java"⟩
        (some "Foo") true = "aaaaaaa"
    ∧ createPackageNameFromUri
        ⟨"/aaaaaaaaaaaaaaaaaaaa/Foo.java", "/aaaaaaaaaaaaaaaaaaaa/Foo.java"⟩
        (some "Foo") false = "aaaaaaa"
    ∧ createPackageNameFromUri
        ⟨"/aaaaaaaaaaaaaaaaaaaa/Foo.java", "/aaaaaaaaaaaaaaaaaaaa/Foo.java"⟩
        (some "Foo") true ≠ ""
    ∧ generateTestClassPackageDeclaration
        ⟨"/aaaaaaaaaaaaaaaaaaaa/Foo.java", "/aaaaaaaaaaaaaaaaaaaa/Foo.java"⟩
        "Foo" = "package aaaaaaa;" := by
  refine ⟨by decide, by decide, by decide, by decide, by decide, by decide⟩

/-- C6 amended: for a location whose path has a file extension and a
non-empty filename, package derivation returns the empty string exactly in
the guarded case of line 57, namely when the computed start offset
(marker index + 15) reaches the computed end offset (filename index - 1) —
e.g. when the source-root marker is absent and the file sits near the path
root; then no package line is emitted.  (A marker-less path in general can
yield a non-empty garbage package instead.) -/
theorem c6_amended_empty_package (u : Uri) (f : String) (isTest : Bool)
    (hext : 0 < (posixExtname u.path).length)
    (hf : ¬ f.length = 0)
    (hle : jsIndexOf u.fsPath (if isTest then "/src/test/java" else "/src/main/java") + 15 ≥
      jsIndexOf u.fsPath f - 1) :
    createPackageNameFromUri u (some f) isTest = ""
    ∧ (isTest = true → generateTestClassPackageDeclaration u f = "") := by
  have h1 : createPackageNameFromUri u (some f) isTest = "" := by
    unfold createPackageNameFromUri
    simp only [if_pos hext, if_neg hf, if_pos hle]
  refine ⟨h1, fun ht => ?_⟩
  unfold generateTestClassPackageDeclaration
  rw [ht] at h1
  simp only [h1]
  rfl

set_option maxRecDepth 40000 in
/-- Witness for the amended C6: `/Foo.java` has an extension, lacks the
marker, and its filename index makes the start offset exceed the end offset,
so the package name is empty and no package line is emitted. -/
theorem c6_amended_empty_package_witness :
    createPackageNameFromUri ⟨"/Foo.java", "/Foo.java"⟩ (some "Foo") true = ""
    ∧ (true = true →
        generateTestClassPackageDeclaration ⟨"/Foo.java", "/Foo.java"⟩ "Foo" = "") :=
  c6_amended_empty_package ⟨"/Foo.java", "/Foo.java"⟩ "Foo" true
    (by decide) (by decide) (by decide)

end JavaTestGen
